import Mathlib

/-!
Verification of the diagnostic/setup scripts of the
`azure-search-python-samples` repository against its specification.

The Python sources are embedded shallowly: pure string/lookup logic becomes
Lean functions on `String`/`List`, the scripts' observable behaviour (file
reads, file copies, prints, network calls) becomes explicit effect traces,
and outcomes of remote calls are passed in as parameters.
-/

/-! ## Generic string helpers (Python `in`, `str.replace`, `str.split`) -/

/-- Does `needle` occur as a contiguous sublist of the second list? -/
def listIsInfixOf (needle : List Char) : List Char → Bool
  | [] => needle.isEmpty
  | c :: rest => needle.isPrefixOf (c :: rest) || listIsInfixOf needle rest

/-- Python `needle in hay` (substring containment). -/
def strContains (hay needle : String) : Bool :=
  listIsInfixOf needle.toList hay.toList

/-- Fuel-driven worker for Python `str.replace`: scans left to right and
replaces every non-overlapping occurrence of `pat` by `rep`. -/
def listReplaceAux (pat rep : List Char) : Nat → List Char → List Char
  | 0, s => s
  | _ + 1, [] => []
  | fuel + 1, c :: rest =>
    if pat ≠ [] ∧ pat.isPrefixOf (c :: rest) then
      rep ++ listReplaceAux pat rep fuel ((c :: rest).drop pat.length)
    else
      c :: listReplaceAux pat rep fuel rest

/-- Python `s.replace(pat, rep)` (replace all occurrences). -/
def strReplace (s pat rep : String) : String :=
  String.mk (listReplaceAux pat.toList rep.toList s.toList.length s.toList)

/-- Python `s.split(sep)` for a single-character separator, on char lists. -/
def splitOnCharList (sep : Char) : List Char → List (List Char)
  | [] => [[]]
  | c :: rest =>
    match splitOnCharList sep rest with
    | [] => [[]]
    | h :: t => if c = sep then [] :: h :: t else (c :: h) :: t

/-- Python `s.lower()` (character-wise lowercasing). -/
def strToLower (s : String) : String :=
  String.mk (s.toList.map Char.toLower)

/-- Python truthiness of an optional string (`not s` is true for `None`
and for the empty string). -/
def truthy (o : Option String) : Bool :=
  !((o.getD "") == "")

/-! ## Quickstart/setup_environment.py and Quickstart/validate_connection.py -/

/-- The documented placeholder sentinel for `SEARCH-ENDPOINT` in `sample.env`. -/
def SEARCH_ENDPOINT_PLACEHOLDER : String :=
  "https://your-service-name.search.windows.net"

/-- The documented placeholder sentinel for `SEARCH-API-KEY` in `sample.env`. -/
def SEARCH_API_KEY_PLACEHOLDER : String :=
  "your-admin-api-key-here"

/-- The masked key display from the sources:
`'*' * (len(key) - 4) + key[-4:]` (Python semantics: a negative repeat
count yields the empty string, `key[-4:]` on a short string is the whole
string). -/
def mask_key (key : String) : String :=
  String.mk (List.replicate (key.length - 4) '*')
    ++ String.mk (key.toList.drop (key.length - 4))

/-- Result of `check_env_file`: either `ok` (the function returns `True`)
or the specific named configuration failure it prints before returning
`False`. -/
inductive EnvCheckResult where
  | noEnvFile
  | endpointNotSet
  | endpointPlaceholder
  | apiKeyNotSet
  | apiKeyPlaceholder
  | ok
  deriving DecidableEq, Repr

/-- Observable effects of the Quickstart scripts. -/
inductive Effect where
  | fsExists (path : String) (result : Bool)
  | fsRead (path : String)
  | fsCopy (src dst : String)
  | envRead (key : String)
  | print (msg : String)
  | network (desc : String)
  deriving DecidableEq, Repr

/-- Is this effect a network call? -/
def Effect.isNetwork : Effect → Bool
  | .network _ => true
  | .fsExists _ _ => false
  | .fsRead _ => false
  | .fsCopy _ _ => false
  | .envRead _ => false
  | .print _ => false

/-- Is this effect a file creation/write (a `shutil.copy`)? -/
def Effect.isCopy : Effect → Bool
  | .fsCopy _ _ => true
  | .fsExists _ _ => false
  | .fsRead _ => false
  | .envRead _ => false
  | .print _ => false
  | .network _ => false

/-- Local filesystem state visible to `setup_environment.py`. `copyOk`
models whether `shutil.copy` succeeds (its `try`/`except`). -/
structure FS where
  envExists : Bool
  sampleExists : Bool
  notebookExists : Bool
  copyOk : Bool
  deriving DecidableEq, Repr

/-- Return value of `check_env_file` in `setup_environment.py`, as a
function of whether `.env` exists and of the loaded environment. -/
def check_env_file (envFileExists : Bool) (env : String → Option String) :
    EnvCheckResult :=
  if !envFileExists then .noEnvFile
  else if !truthy (env "SEARCH-ENDPOINT") then .endpointNotSet
  else if env "SEARCH-ENDPOINT" = some SEARCH_ENDPOINT_PLACEHOLDER then .endpointPlaceholder
  else if !truthy (env "SEARCH-API-KEY") then .apiKeyNotSet
  else if env "SEARCH-API-KEY" = some SEARCH_API_KEY_PLACEHOLDER then .apiKeyPlaceholder
  else .ok

/-- Effect trace of `check_env_file`. -/
def check_env_file_effects (envFileExists : Bool) (env : String → Option String) :
    List Effect :=
  if !envFileExists then
    [.fsExists ".env" false,
     .print "❌ No .env file found!",
     .print "\nTo fix this issue:",
     .print "1. Copy sample.env to .env:",
     .print "   cp sample.env .env",
     .print "2. Edit .env with your actual Azure Search service details",
     .print "3. Run this script again to validate"]
  else
    let ep := env "SEARCH-ENDPOINT"
    let key := env "SEARCH-API-KEY"
    let pre : List Effect :=
      [.fsExists ".env" true, .fsRead ".env",
       .envRead "SEARCH-ENDPOINT", .envRead "SEARCH-API-KEY",
       .print "🔍 Checking environment variables..."]
    if !truthy ep then pre ++ [.print "❌ SEARCH-ENDPOINT is not set"]
    else if ep = some SEARCH_ENDPOINT_PLACEHOLDER then
      pre ++ [.print "❌ SEARCH-ENDPOINT still has the placeholder value"]
    else
      let pre2 := pre ++ [.print ("✅ SEARCH-ENDPOINT: " ++ ep.getD "")]
      if !truthy key then pre2 ++ [.print "❌ SEARCH-API-KEY is not set"]
      else if key = some SEARCH_API_KEY_PLACEHOLDER then
        pre2 ++ [.print "❌ SEARCH-API-KEY still has the placeholder value"]
      else pre2 ++ [.print ("✅ SEARCH-API-KEY: " ++ mask_key (key.getD ""))]

/-- `create_env_file` in `setup_environment.py`: effect trace, boolean
return value, and resulting filesystem state. -/
def create_env_file_run (fs : FS) : List Effect × Bool × FS :=
  if !fs.sampleExists then
    ([.fsExists "sample.env" false, .print "❌ sample.env file not found!"],
     false, fs)
  else if fs.envExists then
    ([.fsExists "sample.env" true, .fsExists ".env" true,
      .print "⚠️  .env file already exists. Skipping creation."],
     true, fs)
  else if fs.copyOk then
    ([.fsExists "sample.env" true, .fsExists ".env" false,
      .fsCopy "sample.env" ".env",
      .print "✅ Created .env file from sample.env",
      .print "📝 Please edit .env with your actual Azure Search service details"],
     true, { fs with envExists := true })
  else
    ([.fsExists "sample.env" true, .fsExists ".env" false,
      .print "❌ Failed to create .env file: error"],
     false, fs)

/-- Tail of `main` in `setup_environment.py`: run `check_env_file` and
print the final verdict. -/
def setup_main_finish (fs : FS) (env : String → Option String) : List Effect :=
  check_env_file_effects fs.envExists env ++
    (if check_env_file fs.envExists env = .ok then
      [.print "\n🎉 Environment is properly configured!",
       .print "You can now run the Azure Search quickstart notebook."]
    else
      [.print "\n❌ Environment is not properly configured.",
       .print "Please fix the issues above and run this script again."])

/-- `main` in `setup_environment.py` as an effect trace. -/
def setup_main_run (fs : FS) (env : String → Option String) : List Effect :=
  let header : List Effect :=
    [.print "🚀 Azure AI Search Quickstart Environment Setup",
     .print (String.mk (List.replicate 50 '='))]
  if !fs.notebookExists then
    header ++ [.fsExists "azure-search-quickstart.ipynb" false,
      .print "❌ Please run this script from the Quickstart directory"]
  else
    let pre := header ++ [.fsExists "azure-search-quickstart.ipynb" true]
    if !fs.envExists then
      let created := create_env_file_run fs
      let pre2 := pre ++ [.fsExists ".env" false,
        .print "📁 Creating .env file..."] ++ created.1
      if !created.2.1 then pre2
      else pre2 ++ setup_main_finish created.2.2 env
    else
      pre ++ [.fsExists ".env" true] ++ setup_main_finish fs env

/-- Possible outcomes of the single `list_indexes` call made by
`validate_connection.py`. -/
inductive ConnOutcome where
  | success (indexNames : List String)
  | serviceRequestError (msg : String)
  | httpResponseError (msg : String)
  | otherError (msg : String)
  deriving DecidableEq, Repr

/-- `validate_connection` in `validate_connection.py`: effect trace plus
boolean return value, parameterised by the environment and by the outcome
the remote service would give to the probe call. -/
def validate_connection_run (env : String → Option String) (net : ConnOutcome) :
    List Effect × Bool :=
  let pre : List Effect :=
    [.print "🔍 Validating Azure Search connection...", .fsRead ".env",
     .envRead "SEARCH-ENDPOINT", .envRead "SEARCH-API-KEY"]
  let ep := env "SEARCH-ENDPOINT"
  let key := env "SEARCH-API-KEY"
  if !truthy ep || !truthy key then
    (pre ++ [.print "❌ Missing environment variables!",
      .print "Please ensure SEARCH-ENDPOINT and SEARCH-API-KEY are set in your .env file"],
     false)
  else
    let pre2 := pre ++
      [.print ("📍 Endpoint: " ++ ep.getD ""),
       .print ("🔑 API Key: " ++ mask_key (key.getD "")),
       .print "\n🔄 Testing connection...",
       .network "list_indexes"]
    match net with
    | .success names =>
      (pre2 ++ [.print "✅ Connection successful!"]
        ++ names.map (fun n => .print ("   - " ++ n)), true)
    | .serviceRequestError m => (pre2 ++ [.print ("❌ Connection failed: " ++ m)], false)
    | .httpResponseError m => (pre2 ++ [.print ("❌ Authentication failed: " ++ m)], false)
    | .otherError m => (pre2 ++ [.print ("❌ Unexpected error: " ++ m)], false)

/-- An environment whose two required keys both still hold their
documented placeholder sentinels. -/
def envPl : String → Option String := fun k =>
  if k = "SEARCH-ENDPOINT" then some SEARCH_ENDPOINT_PLACEHOLDER
  else if k = "SEARCH-API-KEY" then some SEARCH_API_KEY_PLACEHOLDER
  else none

/-- An environment with a real endpoint and a placeholder API key. -/
def envC2 : String → Option String := fun k =>
  if k = "SEARCH-ENDPOINT" then some "https://myservice.search.windows.net"
  else if k = "SEARCH-API-KEY" then some SEARCH_API_KEY_PLACEHOLDER
  else none

/-- A filesystem in which `.env` is missing but `sample.env` and the
notebook are present, and copying succeeds. -/
def fs0 : FS := ⟨false, true, true, true⟩

/-- A fully set-up filesystem (`.env` present). -/
def fs1 : FS := ⟨true, true, true, true⟩

/-! ## Quickstart-Agentic-Retrieval/check_azure_region.py -/

/-- The fixed allow-list of regions supporting the Responses API
(`check_supported_regions` in `check_azure_region.py`; the same list is
hard-coded in `check_region.py`). -/
def supported_regions : List String :=
  ["East US", "West US 2", "North Europe", "West Europe",
   "UK South", "Australia East", "Canada East"]

/-- The short-host-token mapping of `check_supported_regions` in
`check_azure_region.py` (`region_mappings`), in source order. -/
def region_mappings : List (String × String) :=
  [("eastus", "East US"),
   ("westus2", "West US 2"),
   ("northeurope", "North Europe"),
   ("westeurope", "West Europe"),
   ("uksouth", "UK South"),
   ("australiaeast", "Australia East"),
   ("canadaeast", "Canada East")]

/-- `check_region_support` in `check_azure_region.py`: exact match against
the allow-list, then a bidirectional substring test against each mapping
token, returning `True` as soon as a matching token maps to a supported
region. -/
def check_region_support (region : String) : Bool :=
  if region ∈ supported_regions then true
  else
    region_mappings.any fun pm =>
      (strContains (strToLower region) pm.1 || strContains pm.1 (strToLower region))
        && decide (pm.2 ∈ supported_regions)

/-- `main` in `check_azure_region.py` when the Azure CLI lookup yields no
region: the script prints the could-not-determine warning, manual-check
instructions, and then the full allow-list. Modelled as the list of
printed lines relevant to region determination. -/
def check_azure_region_main (cli_region : Option String) : List String :=
  match cli_region with
  | some region =>
    if check_region_support region then
      ["✅ This region supports the Responses API!"]
    else
      ["❌ This region does NOT support the Responses API."]
  | none =>
    ["⚠️  Could not determine region automatically.",
     "Please check manually in Azure Portal:"]
      ++ supported_regions.map (fun r => "  • " ++ r)

/-! ## Quickstart-Agentic-Retrieval/check_region.py -/

/-- The `region_patterns` table of `check_service_region` in
`check_region.py`, in source (insertion) order. -/
def region_patterns : List (String × String) :=
  [("eastus", "East US"),
   ("westus2", "West US 2"),
   ("northeurope", "North Europe"),
   ("westeurope", "West Europe"),
   ("uksouth", "UK South"),
   ("australiaeast", "Australia East"),
   ("canadaeast", "Canada East"),
   ("centralus", "Central US"),
   ("southcentralus", "South Central US"),
   ("westus", "West US"),
   ("eastus2", "East US 2"),
   ("brazilsouth", "Brazil South"),
   ("japaneast", "Japan East"),
   ("southeastasia", "Southeast Asia"),
   ("koreacentral", "Korea Central")]

/-- Service-name extraction shared by `check_region.py` and
`check_azure_region.py`: `endpoint.replace("https://", "").split(".")[0]`. -/
def extract_service_name (endpoint : String) : String :=
  String.mk (((splitOnCharList '.' (strReplace endpoint "https://" "").toList).headD []))

/-- The pattern loop of `check_service_region`: the first entry of
`region_patterns` whose token occurs in the lowercased service name wins
(`break`), with no scoring. -/
def find_region (service_name : String) : Option String :=
  (region_patterns.find? fun pm => strContains (strToLower service_name) pm.1).map (·.2)

/-- After a region was detected, `check_service_region` reports whether it
lies in the allow-list; `none` when no token matched. -/
def detect_supported (service_name : String) : Option Bool :=
  (find_region service_name).map fun r => decide (r ∈ supported_regions)

/-- Overall outcome of `check_service_region` in `check_region.py`. -/
inductive RegionOutcome where
  | noEndpoint
  | badFormat
  | supported (region : String)
  | unsupported (region : String)
  | undetermined
  deriving DecidableEq, Repr

/-- `check_service_region` in `check_region.py` as a function of the
configured endpoint. -/
def check_service_region (endpoint : Option String) : RegionOutcome :=
  if !truthy endpoint then .noEndpoint
  else
    let ep := endpoint.getD ""
    if strContains ep "openai.azure.com" then
      match find_region (extract_service_name ep) with
      | some r => if r ∈ supported_regions then .supported r else .unsupported r
      | none => .undetermined
    else .badFormat

/-! ## Quickstart-Agentic-Retrieval/check_responses_api.py -/

/-- The remediation lines printed for a 404 failure in
`test_responses_api_availability`. -/
def hints404 : List String :=
  ["\n🔧 TROUBLESHOOTING 404 ERROR:",
   "1. Check if your Azure OpenAI service is in a supported region:",
   "   - East US, West US 2, North Europe, West Europe",
   "   - UK South, Australia East, Canada East",
   "2. Verify you\x27re using the latest API version: 2025-05-01-Preview",
   "3. Make sure your model deployment supports the Responses API",
   "4. Check if your Azure OpenAI service was created recently"]

/-- The remediation lines printed for a 401 failure. -/
def hints401 : List String :=
  ["\n🔧 TROUBLESHOOTING 401 ERROR:",
   "1. Check your authentication credentials",
   "2. Verify you have the correct permissions"]

/-- The remediation lines printed for a 400 failure. -/
def hints400 : List String :=
  ["\n🔧 TROUBLESHOOTING 400 ERROR:",
   "1. Check your model deployment name",
   "2. Verify the model supports the Responses API"]

/-- The `if "404" in str(e) / elif "401" / elif "400"` classification of
the caught exception in `test_responses_api_availability`. -/
def troubleshoot (e : String) : List String :=
  if strContains e "404" then hints404
  else if strContains e "401" then hints401
  else if strContains e "400" then hints400
  else []

/-- `test_responses_api_availability`: the probe call is made exactly once
(first component: number of `client.responses.create` invocations); on
failure the error is printed followed by the classified remediation
hints. -/
def test_responses_api_availability (call : Except String String) :
    Nat × List String :=
  match call with
  | .ok out => (1, ["✅ SUCCESS! Responses API is available!", "Response: " ++ out])
  | .error e => (1, ("❌ Responses API failed: " ++ e) :: troubleshoot e)

/-! ## Quickstart-Document-Permissions-Pull-API/check_adls_permissions.py -/

/-- Per-step external outcomes for `check_adls_permissions.py`. Steps 1-4
(environment, authentication, Graph lookup, container) are fatal on
failure; steps 5-8 (directory creation, root ACLs, the two uploads) are
individually wrapped diagnostics. -/
structure AdlsOutcomes where
  step1 : Except String Unit
  step2 : Except String Unit
  step3 : Except String Unit
  step4 : Except String Unit
  step5 : Except String Unit
  step6 : Except String Unit
  step7 : Except String Unit
  step8 : Except String Unit

/-- Observable script-level events of `check_adls_permissions.py`. -/
inductive AdlsEvent where
  | header (n : Nat)
  | success (n : Nat)
  | failure (n : Nat) (msg : String)
  | exited (code : Nat)
  deriving DecidableEq, Repr

/-- A step wrapped in `try`/`except` with `sys.exit(1)` in the handler. -/
def fatalStep (n : Nat) (r : Except String Unit) (rest : List AdlsEvent) :
    List AdlsEvent :=
  match r with
  | .ok _ => [.header n, .success n] ++ rest
  | .error e => [.header n, .failure n e, .exited 1]

/-- A step wrapped in `try`/`except` that only prints the failure and
falls through to the next step. -/
def wrapStep (n : Nat) (r : Except String Unit) : List AdlsEvent :=
  match r with
  | .ok _ => [.header n, .success n]
  | .error e => [.header n, .failure n e]

/-- The module-level flow of `check_adls_permissions.py`. -/
def run_adls_script (o : AdlsOutcomes) : List AdlsEvent :=
  fatalStep 1 o.step1 (fatalStep 2 o.step2 (fatalStep 3 o.step3 (fatalStep 4 o.step4
    (wrapStep 5 o.step5 ++ wrapStep 6 o.step6 ++ wrapStep 7 o.step7 ++ wrapStep 8 o.step8))))

/-- Concrete outcome assignment: everything succeeds except the root-ACL
step. -/
def adlsO : AdlsOutcomes :=
  ⟨.ok (), .ok (), .ok (), .ok (), .ok (), .error "acl denied", .ok (), .ok ()⟩

/-! ## Helper lemmas shared by the claim theorems -/

theorem check_env_file_effects_no_network (b : Bool) (env : String → Option String) :
    (check_env_file_effects b env).any Effect.isNetwork = false := by
  unfold check_env_file_effects
  dsimp only
  split_ifs <;>
    simp only [List.any_append, List.any_cons, List.any_nil, Effect.isNetwork,
      Bool.or_false, Bool.false_or, Bool.or_self]

theorem check_env_file_effects_no_copy (b : Bool) (env : String → Option String) :
    (check_env_file_effects b env).any Effect.isCopy = false := by
  unfold check_env_file_effects
  dsimp only
  split_ifs <;>
    simp only [List.any_append, List.any_cons, List.any_nil, Effect.isCopy,
      Bool.or_false, Bool.false_or, Bool.or_self]

theorem create_env_file_no_network (fs : FS) :
    (create_env_file_run fs).1.any Effect.isNetwork = false := by
  unfold create_env_file_run
  split_ifs <;>
    simp only [List.any_cons, List.any_nil, Effect.isNetwork,
      Bool.or_false, Bool.false_or, Bool.or_self]

theorem create_env_file_no_copy_target (fs : FS) :
    (create_env_file_run fs).1.all
      (fun e => !e.isCopy || decide (e = Effect.fsCopy "sample.env" ".env")) = true := by
  unfold create_env_file_run
  split_ifs <;>
    simp [Effect.isCopy]

theorem setup_main_finish_no_network (fs : FS) (env : String → Option String) :
    (setup_main_finish fs env).any Effect.isNetwork = false := by
  unfold setup_main_finish
  rw [List.any_append, check_env_file_effects_no_network]
  split_ifs <;>
    simp only [List.any_cons, List.any_nil, Effect.isNetwork,
      Bool.or_false, Bool.false_or, Bool.or_self]

theorem setup_main_finish_no_copy (fs : FS) (env : String → Option String) :
    (setup_main_finish fs env).any Effect.isCopy = false := by
  unfold setup_main_finish
  rw [List.any_append, check_env_file_effects_no_copy]
  split_ifs <;>
    simp only [List.any_cons, List.any_nil, Effect.isCopy,
      Bool.or_false, Bool.false_or, Bool.or_self]

theorem setup_main_no_network (fs : FS) (env : String → Option String) :
    (setup_main_run fs env).any Effect.isNetwork = false := by
  unfold setup_main_run
  dsimp only
  split_ifs <;>
    simp only [List.any_append, List.any_cons, List.any_nil, Effect.isNetwork,
      Bool.or_false, Bool.false_or, Bool.or_self,
      setup_main_finish_no_network, create_env_file_no_network]

/-! ## Claim theorems -/

/-- C3: `check_region_support` returns `true` for every canonical region
name in its fixed allow-list (East US, West US 2, North Europe,
West Europe, UK South, Australia East, Canada East) and `false` for the
arbitrary unrelated string "Mars Base One". -/
theorem check_region_support_allowlist :
    (∀ r ∈ supported_regions, check_region_support r = true)
    ∧ check_region_support "Mars Base One" = false := by decide

/-- C5: for the endpoint `https://contoso.openai.azure.com` the matcher
derives no canonical region from the host alone (`check_service_region`
ends undetermined, the pattern table finds no region in the service name
"contoso"), and the autodetection-failure path of `check_azure_region.py`
prints the could-not-determine warning followed by lines listing every
region of the full allow-list. -/
theorem contoso_endpoint_undetermined :
    check_service_region (some "https://contoso.openai.azure.com")
      = RegionOutcome.undetermined
    ∧ extract_service_name "https://contoso.openai.azure.com" = "contoso"
    ∧ find_region "contoso" = none
    ∧ "⚠️  Could not determine region automatically." ∈ check_azure_region_main none
    ∧ (∀ r ∈ supported_regions,
        ∃ m ∈ check_azure_region_main none, strContains m r = true) := by decide

/-- C9: `check_region_support` also accepts strings that are neither
canonical region names nor complete host tokens: whenever the lowercased
input occurs as a substring of some mapping token, the bidirectional
fallback test matches that entry and the function returns `true`. -/
theorem check_region_support_substring (s : String) (h1 : s ≠ "")
    (h2 : ∃ pm ∈ region_mappings, strContains pm.1 (strToLower s) = true) :
    check_region_support s = true := by
  obtain ⟨pm, hmem, hsub⟩ := h2
  have hsup : pm.2 ∈ supported_regions := by
    have hall : ∀ q ∈ region_mappings, q.2 ∈ supported_regions := by decide
    exact hall pm hmem
  unfold check_region_support
  split
  · rfl
  · rw [List.any_eq_true]
    exact ⟨pm, hmem, by simp [hsub, hsup]⟩

/-- C9 witness: the two-letter string "us" (a substring of the token
"eastus") is accepted by `check_region_support`. -/
theorem check_region_support_substring_witness :
    ("us" ≠ "" ∧ (∃ pm ∈ region_mappings, strContains pm.1 (strToLower "us") = true))
    ∧ check_region_support "us" = true :=
  ⟨⟨by decide, by decide⟩,
   check_region_support_substring "us" (by decide) (by decide)⟩

/-- C6: when the probe call of `test_responses_api_availability` fails
with a Not-Found (404) classification, exactly one probe call was made
(no retry), the printed remediation is the 404 hint block, and that block
differs from the 401 (Unauthorized) hint block. -/
theorem responses_api_404_single_attempt (e : String)
    (h : strContains e "404" = true) :
    (test_responses_api_availability (.error e)).1 = 1
    ∧ (test_responses_api_availability (.error e)).2
        = ("❌ Responses API failed: " ++ e) :: hints404
    ∧ hints404 ≠ hints401 := by
  refine ⟨rfl, ?_, by decide⟩
  simp [test_responses_api_availability, troubleshoot, h]

/-- C6 witness: a concrete 404-classified error message. -/
theorem responses_api_404_single_attempt_witness :
    strContains "Error code: 404 - Resource not found" "404" = true
    ∧ ((test_responses_api_availability (.error "Error code: 404 - Resource not found")).1 = 1
      ∧ (test_responses_api_availability (.error "Error code: 404 - Resource not found")).2
          = ("❌ Responses API failed: " ++ "Error code: 404 - Resource not found") :: hints404
      ∧ hints404 ≠ hints401) :=
  ⟨by decide,
   responses_api_404_single_attempt "Error code: 404 - Resource not found" (by decide)⟩

/-- C10: the masked key display equals `len(k) - 4` asterisks followed by
the last four characters of the key, and for keys of length at most four
the whole key is displayed unmasked. -/
theorem mask_key_spec (k : String) :
    mask_key k
      = String.mk (List.replicate (k.length - 4) '*')
        ++ String.mk ((k.toList.reverse.take 4).reverse)
    ∧ (k.length ≤ 4 → mask_key k = k) := by
  constructor
  · unfold mask_key
    congr 2
    have h := List.rtake_eq_reverse_take_reverse (l := k.toList) (n := 4)
    rw [List.rtake] at h
    exact h
  · intro hle
    have h0 : k.length - 4 = 0 := Nat.sub_eq_zero_of_le hle
    unfold mask_key
    rw [h0]
    cases k with
    | mk data => rfl

/-- C10 witness: a three-character key is shown in full. -/
theorem mask_key_spec_witness :
    "abc".length ≤ 4 ∧ mask_key "abc" = "abc" :=
  ⟨by decide, (mask_key_spec "abc").2 (by decide)⟩

/-- C4: whenever the lowercased service/host name contains a token of the
`region_patterns` table, the loop of `check_service_region` resolves it to
a canonical region name, namely the second component of the first table
entry (in source order) whose token occurs in the name — no scoring — and
the subsequent support report is exactly membership of that canonical
name in the allow-list. -/
theorem find_region_first_match (name : String)
    (h : ∃ pm ∈ region_patterns, strContains (strToLower name) pm.1 = true) :
    ∃ pm l1 l2,
      region_patterns = l1 ++ pm :: l2
      ∧ strContains (strToLower name) pm.1 = true
      ∧ (∀ q ∈ l1, strContains (strToLower name) q.1 = false)
      ∧ find_region name = some pm.2
      ∧ detect_supported name = some (decide (pm.2 ∈ supported_regions)) := by
  obtain ⟨pm0, hmem, hp⟩ := h
  have hs : (region_patterns.find? fun pm => strContains (strToLower name) pm.1).isSome := by
    rw [List.find?_isSome]
    exact ⟨pm0, hmem, hp⟩
  obtain ⟨a, ha⟩ := Option.isSome_iff_exists.mp hs
  have ha' := ha
  rw [List.find?_eq_some] at ha'
  obtain ⟨hpa, as, bs, hsplit, hall⟩ := ha'
  refine ⟨a, as, bs, hsplit, hpa, ?_, ?_, ?_⟩
  · intro q hq
    simpa using hall q hq
  · simp [find_region, ha]
  · simp [detect_supported, find_region, ha]

/-- C4 witness: "eastus2" contains both the tokens "eastus" and "eastus2";
the first table entry ("eastus" ↦ "East US") wins. -/
theorem find_region_first_match_witness :
    (∃ pm ∈ region_patterns, strContains (strToLower "eastus2") pm.1 = true)
    ∧ (∃ pm l1 l2,
        region_patterns = l1 ++ pm :: l2
        ∧ strContains (strToLower "eastus2") pm.1 = true
        ∧ (∀ q ∈ l1, strContains (strToLower "eastus2") q.1 = false)
        ∧ find_region "eastus2" = some pm.2
        ∧ detect_supported "eastus2" = some (decide (pm.2 ∈ supported_regions))) :=
  ⟨by decide, find_region_first_match "eastus2" (by decide)⟩

theorem header_mem_wrapStep (n : Nat) (r : Except String Unit) :
    AdlsEvent.header n ∈ wrapStep n r := by
  cases r <;> simp [wrapStep]

theorem failure_mem_wrapStep (n : Nat) (e : String) (r : Except String Unit)
    (h : r = .error e) : AdlsEvent.failure n e ∈ wrapStep n r := by
  subst h
  simp [wrapStep]

theorem exited_not_mem_wrapStep (n c : Nat) (r : Except String Unit) :
    AdlsEvent.exited c ∉ wrapStep n r := by
  cases r <;> simp [wrapStep]

/-- C8: in `check_adls_permissions.py`, once the four fatal setup steps
succeed, every diagnostic step 5-8 is attempted regardless of the others:
each step's header appears in the trace, a failing step leaves its printed
failure in the trace without aborting (no `sys.exit` event occurs), and
later steps still run. -/
theorem adls_best_effort_sweep (o : AdlsOutcomes)
    (h1 : o.step1 = .ok ()) (h2 : o.step2 = .ok ())
    (h3 : o.step3 = .ok ()) (h4 : o.step4 = .ok ()) :
    (∀ n ∈ [5, 6, 7, 8], AdlsEvent.header n ∈ run_adls_script o)
    ∧ (∀ e, o.step5 = .error e → AdlsEvent.failure 5 e ∈ run_adls_script o)
    ∧ (∀ e, o.step6 = .error e → AdlsEvent.failure 6 e ∈ run_adls_script o)
    ∧ (∀ e, o.step7 = .error e → AdlsEvent.failure 7 e ∈ run_adls_script o)
    ∧ (∀ e, o.step8 = .error e → AdlsEvent.failure 8 e ∈ run_adls_script o)
    ∧ (∀ c, AdlsEvent.exited c ∉ run_adls_script o) := by
  have htrace : run_adls_script o =
      [.header 1, .success 1, .header 2, .success 2, .header 3, .success 3,
       .header 4, .success 4]
      ++ (wrapStep 5 o.step5 ++ wrapStep 6 o.step6
          ++ wrapStep 7 o.step7 ++ wrapStep 8 o.step8) := by
    unfold run_adls_script
    rw [h1, h2, h3, h4]
    rfl
  refine ⟨?_, ?_, ?_, ?_, ?_, ?_⟩
  · intro n hn
    rw [htrace]
    fin_cases hn <;> simp [header_mem_wrapStep]
  · intro e he
    rw [htrace]
    have hm := failure_mem_wrapStep 5 e o.step5 he
    simp [hm]
  · intro e he
    rw [htrace]
    have hm := failure_mem_wrapStep 6 e o.step6 he
    simp [hm]
  · intro e he
    rw [htrace]
    have hm := failure_mem_wrapStep 7 e o.step7 he
    simp [hm]
  · intro e he
    rw [htrace]
    have hm := failure_mem_wrapStep 8 e o.step8 he
    simp [hm]
  · intro c
    rw [htrace]
    simp [exited_not_mem_wrapStep]

/-- C8 witness: with the root-ACL step failing and all other steps
succeeding, the later steps still appear in the trace and the failure is
recorded without an exit. -/
theorem adls_best_effort_sweep_witness :
    (adlsO.step1 = Except.ok () ∧ adlsO.step2 = Except.ok ()
      ∧ adlsO.step3 = Except.ok () ∧ adlsO.step4 = Except.ok ())
    ∧ ((∀ n ∈ [5, 6, 7, 8], AdlsEvent.header n ∈ run_adls_script adlsO)
      ∧ (∀ e, adlsO.step5 = .error e → AdlsEvent.failure 5 e ∈ run_adls_script adlsO)
      ∧ (∀ e, adlsO.step6 = .error e → AdlsEvent.failure 6 e ∈ run_adls_script adlsO)
      ∧ (∀ e, adlsO.step7 = .error e → AdlsEvent.failure 7 e ∈ run_adls_script adlsO)
      ∧ (∀ e, adlsO.step8 = .error e → AdlsEvent.failure 8 e ∈ run_adls_script adlsO)
      ∧ (∀ c, AdlsEvent.exited c ∉ run_adls_script adlsO)) :=
  ⟨⟨rfl, rfl, rfl, rfl⟩, adls_best_effort_sweep adlsO rfl rfl rfl rfl⟩

/-- C1 counterexample: with both required keys set to their documented
placeholder sentinels, the configuration check of `validate_connection.py`
does not fail — the script proceeds all the way to the network probe
(`list_indexes`), contradicting the claim that every script's
configuration check fails on placeholder values. -/
theorem validate_connection_placeholder_passes :
    envPl "SEARCH-ENDPOINT" = some SEARCH_ENDPOINT_PLACEHOLDER
    ∧ envPl "SEARCH-API-KEY" = some SEARCH_API_KEY_PLACEHOLDER
    ∧ (validate_connection_run envPl (ConnOutcome.httpResponseError "403 Forbidden")).1.any
        Effect.isNetwork = true := by decide

/-- C1 amended: `check_env_file` (setup_environment.py) fails with an
error naming the key when a required key is absent or empty, fails naming
the key when the value equals its documented placeholder, and succeeds
otherwise; the configuration check of `validate_connection.py`, by
contrast, tests only presence/non-emptiness of the two keys — the network
call is attempted exactly when both keys are non-empty, regardless of
placeholder values. -/
theorem config_check_characterization (env : String → Option String) (net : ConnOutcome) :
    (check_env_file true env = EnvCheckResult.ok ↔
      truthy (env "SEARCH-ENDPOINT") = true
      ∧ env "SEARCH-ENDPOINT" ≠ some SEARCH_ENDPOINT_PLACEHOLDER
      ∧ truthy (env "SEARCH-API-KEY") = true
      ∧ env "SEARCH-API-KEY" ≠ some SEARCH_API_KEY_PLACEHOLDER)
    ∧ (check_env_file true env = EnvCheckResult.endpointNotSet ↔
      truthy (env "SEARCH-ENDPOINT") = false)
    ∧ (check_env_file true env = EnvCheckResult.endpointPlaceholder ↔
      truthy (env "SEARCH-ENDPOINT") = true
      ∧ env "SEARCH-ENDPOINT" = some SEARCH_ENDPOINT_PLACEHOLDER)
    ∧ (check_env_file true env = EnvCheckResult.apiKeyNotSet ↔
      truthy (env "SEARCH-ENDPOINT") = true
      ∧ env "SEARCH-ENDPOINT" ≠ some SEARCH_ENDPOINT_PLACEHOLDER
      ∧ truthy (env "SEARCH-API-KEY") = false)
    ∧ (check_env_file true env = EnvCheckResult.apiKeyPlaceholder ↔
      truthy (env "SEARCH-ENDPOINT") = true
      ∧ env "SEARCH-ENDPOINT" ≠ some SEARCH_ENDPOINT_PLACEHOLDER
      ∧ truthy (env "SEARCH-API-KEY") = true
      ∧ env "SEARCH-API-KEY" = some SEARCH_API_KEY_PLACEHOLDER)
    ∧ ((validate_connection_run env net).1.any Effect.isNetwork
        = (truthy (env "SEARCH-ENDPOINT") && truthy (env "SEARCH-API-KEY"))) := by
  have hepT : truthy (some SEARCH_ENDPOINT_PLACEHOLDER) = true := by decide
  have hkT : truthy (some SEARCH_API_KEY_PLACEHOLDER) = true := by decide
  cases hE : truthy (env "SEARCH-ENDPOINT") <;>
    by_cases hEp : env "SEARCH-ENDPOINT" = some SEARCH_ENDPOINT_PLACEHOLDER <;>
    cases hK : truthy (env "SEARCH-API-KEY") <;>
    by_cases hKp : env "SEARCH-API-KEY" = some SEARCH_API_KEY_PLACEHOLDER <;>
    cases net <;>
    simp_all [check_env_file, validate_connection_run, Effect.isNetwork, Function.comp]

/-- C2: when the configuration has a properly configured endpoint and
`SEARCH-API-KEY` equal to the placeholder `your-admin-api-key-here`,
`check_env_file` returns the failure naming `SEARCH-API-KEY` (not `ok`),
prints the message blaming that specific key, and the whole
`setup_environment.py` run performs no network call. -/
theorem placeholder_api_key_reported (fs : FS) (env : String → Option String)
    (h1 : truthy (env "SEARCH-ENDPOINT") = true)
    (h2 : env "SEARCH-ENDPOINT" ≠ some SEARCH_ENDPOINT_PLACEHOLDER)
    (h3 : env "SEARCH-API-KEY" = some SEARCH_API_KEY_PLACEHOLDER) :
    check_env_file true env = EnvCheckResult.apiKeyPlaceholder
    ∧ EnvCheckResult.apiKeyPlaceholder ≠ EnvCheckResult.ok
    ∧ Effect.print "❌ SEARCH-API-KEY still has the placeholder value"
        ∈ check_env_file_effects true env
    ∧ (setup_main_run fs env).any Effect.isNetwork = false := by
  have hkP : truthy (some SEARCH_API_KEY_PLACEHOLDER) = true := by decide
  have hkT : truthy (env "SEARCH-API-KEY") = true := by
    rw [h3]
    decide
  refine ⟨?_, by decide, ?_, setup_main_no_network fs env⟩
  · simp [check_env_file, h1, h2, h3, hkT, hkP]
  · simp [check_env_file_effects, h1, h2, h3, hkT, hkP]

/-- C2 witness: a concrete environment with a real endpoint and the
placeholder API key. -/
theorem placeholder_api_key_reported_witness :
    (truthy (envC2 "SEARCH-ENDPOINT") = true
      ∧ envC2 "SEARCH-ENDPOINT" ≠ some SEARCH_ENDPOINT_PLACEHOLDER
      ∧ envC2 "SEARCH-API-KEY" = some SEARCH_API_KEY_PLACEHOLDER)
    ∧ (check_env_file true envC2 = EnvCheckResult.apiKeyPlaceholder
      ∧ EnvCheckResult.apiKeyPlaceholder ≠ EnvCheckResult.ok
      ∧ Effect.print "❌ SEARCH-API-KEY still has the placeholder value"
          ∈ check_env_file_effects true envC2
      ∧ (setup_main_run fs1 envC2).any Effect.isNetwork = false) :=
  ⟨⟨by decide, by decide, by decide⟩,
   placeholder_api_key_reported fs1 envC2 (by decide) (by decide) (by decide)⟩

/-- C7 counterexample: on a filesystem where `.env` is missing and
`sample.env` exists, the `setup_environment.py` run cited by the claim
does create a file — it copies `sample.env` to `.env` — so the routine is
not free of write effects. -/
theorem setup_environment_writes_file :
    Effect.fsCopy "sample.env" ".env" ∈ setup_main_run fs0 envPl
    ∧ (setup_main_run fs0 envPl).any Effect.isCopy = true := by decide

/-- C7 amended: `check_env_file` itself only reads files and the
environment (no write, no network); the whole `setup_environment.py` main
performs no network access; and the only write it can ever perform is the
copy of `sample.env` to `.env`, which happens only when `.env` is
absent. -/
theorem setup_environment_effects (fs : FS) (env : String → Option String) :
    (check_env_file_effects fs.envExists env).any Effect.isNetwork = false
    ∧ (check_env_file_effects fs.envExists env).any Effect.isCopy = false
    ∧ (setup_main_run fs env).any Effect.isNetwork = false
    ∧ ((setup_main_run fs env).any Effect.isCopy = true →
        fs.envExists = false
        ∧ Effect.fsCopy "sample.env" ".env" ∈ setup_main_run fs env) := by
  refine ⟨check_env_file_effects_no_network _ _, check_env_file_effects_no_copy _ _,
    setup_main_no_network _ _, ?_⟩
  obtain ⟨fe, se, ne, co⟩ := fs
  cases fe <;> cases se <;> cases ne <;> cases co <;>
    simp [setup_main_run, create_env_file_run, Effect.isCopy,
      setup_main_finish_no_copy]

/-- C7 witness: on the concrete filesystem `fs0` a copy effect occurs, and
the amended theorem localises it to the `sample.env` → `.env` copy. -/
theorem setup_environment_effects_witness :
    ((setup_main_run fs0 envPl).any Effect.isCopy = true)
    ∧ (fs0.envExists = false
      ∧ Effect.fsCopy "sample.env" ".env" ∈ setup_main_run fs0 envPl) :=
  ⟨by decide, (setup_environment_effects fs0 envPl).2.2.2 (by decide)⟩
